import Mathlib

/-!
Shallow embedding of the validation and URL-composition core of the
mcp-image-placeholder server (TypeScript), together with theorems checking
the natural-language specification against it.

Sources embedded:
  - src/core/urlBuilders/BaseUrlBuilder.ts    (dimension validation, colors, text encoding)
  - src/core/urlBuilders/PlaceholdUrlBuilder.ts
  - src/core/urlBuilders/PicsumUrlBuilder.ts
  - src/core/validator.ts                     (PlaceholderValidator)
  - src/core/placeholderGenerator.ts          (builder-based PlaceholderGenerator)
  - src/config (DEFAULT_CONSTRAINTS)

Modelling conventions:
  - TypeScript numbers that the code requires to be integers are Int.
  - Optional fields are Option; JavaScript truthiness of an optional string
    is "present and non-empty", of an optional number "present and nonzero",
    of an optional boolean "present and true".
  - Thrown ValidationError / ProviderError become Except.error of GenError.
  - The logger is a side channel; it is modelled separately (see the
    Logged definitions) as an append-only list of records.
-/

/-- JavaScript truthiness of an optional string: present and non-empty. -/
def truthyStr : Option String → Bool
  | none => false
  | some s => !(s == "")

/-- JavaScript truthiness of an optional number: present and nonzero. -/
def truthyInt : Option Int → Bool
  | none => false
  | some n => n != 0

/-- JavaScript truthiness of an optional boolean: present and true. -/
def truthyBool : Option Bool → Bool
  | none => false
  | some b => b

@[simp] theorem truthyStr_none : truthyStr none = false := rfl

@[simp] theorem truthyStr_some (s : String) : truthyStr (some s) = !(s == "") := rfl

@[simp] theorem truthyInt_none : truthyInt none = false := rfl

@[simp] theorem truthyInt_some (n : Int) : truthyInt (some n) = (n != 0) := rfl

@[simp] theorem truthyBool_none : truthyBool none = false := rfl

@[simp] theorem truthyBool_some (b : Bool) : truthyBool (some b) = b := rfl

/-- JavaScript String.prototype.replace with a one-character string pattern:
replaces only the FIRST occurrence of the pattern character. -/
def jsReplaceFirstChar (pat repl : Char) : List Char → List Char
  | [] => []
  | c :: cs => if c = pat then repl :: cs else c :: jsReplaceFirstChar pat repl cs

/-- `font.replace('-', '+')` from PlaceholdUrlBuilder.buildUrl: first hyphen only. -/
def jsReplaceFirstHyphen (s : String) : String :=
  ⟨jsReplaceFirstChar '-' '+' s.data⟩

/-- Error model: ValidationError (field, value, constraint text) and
ProviderError (provider, message) from src/errors. -/
inductive GenError where
  | validationError (field : String) (value : String) (constraint : String)
  | providerError (provider : String) (message : String)
deriving Repr, DecidableEq

instance {ε α : Type} [DecidableEq ε] [DecidableEq α] : DecidableEq (Except ε α) :=
  fun a b =>
    match a, b with
    | Except.ok x, Except.ok y =>
      if h : x = y then isTrue (by rw [h]) else isFalse (by simp [h])
    | Except.error x, Except.error y =>
      if h : x = y then isTrue (by rw [h]) else isFalse (by simp [h])
    | Except.ok _, Except.error _ => isFalse (by simp)
    | Except.error _, Except.ok _ => isFalse (by simp)

@[simp] theorem exceptThrowVanish {ε α β : Type} (e : ε) (k : α → Except ε β) :
    (throw e : Except ε α) >>= k = Except.error e := rfl

@[simp] theorem exceptOkVanish {ε α β : Type} (a : α) (k : α → Except ε β) :
    (pure a : Except ε α) >>= k = k a := rfl

@[simp] theorem exceptMapThrow {ε α β : Type} (f : α → β) (e : ε) :
    (f <$> (throw e : Except ε α)) = Except.error e := rfl

@[simp] theorem exceptMapPure {ε α β : Type} (f : α → β) (a : α) :
    (f <$> (pure a : Except ε α)) = Except.ok (f a) := rfl

@[simp] theorem isOkError {ε α : Type} (e : ε) :
    (Except.error e : Except ε α).isOk = false := rfl

@[simp] theorem isOkPure {ε α : Type} (a : α) :
    (Except.ok a : Except ε α).isOk = true := rfl

@[simp] theorem throwNeOk {ε α : Type} (e : ε) (a : α) :
    ((throw e : Except ε α) = Except.ok a) = False := by
  simp [throw, throwThe, MonadExceptOf.throw]

@[simp] theorem pureEqOk {ε α : Type} (a b : α) :
    ((pure a : Except ε α) = Except.ok b) = (a = b) := by
  show (Except.ok a = Except.ok b) = (a = b)
  simp

@[simp] theorem intercalateSingleton (sep x : String) :
    String.intercalate sep [x] = x := rfl

@[simp] theorem errorBind {ε α β : Type} (e : ε) (k : α → Except ε β) :
    (Except.error e : Except ε α) >>= k = Except.error e := rfl

@[simp] theorem okBind {ε α β : Type} (a : α) (k : α → Except ε β) :
    (Except.ok a : Except ε α) >>= k = k a := rfl

@[simp] theorem errorNeOk {ε α : Type} (e : ε) (a : α) :
    ((Except.error e : Except ε α) = Except.ok a) = False := by
  simp

@[simp] theorem exceptMapOk {ε α β : Type} (f : α → β) (a : α) :
    (f <$> (Except.ok a : Except ε α)) = Except.ok (f a) := rfl

@[simp] theorem exceptMapError {ε α β : Type} (f : α → β) (e : ε) :
    (f <$> (Except.error e : Except ε α)) = Except.error e := rfl

/-- A guarded append is an unconditional append of a guarded suffix. -/
theorem appendIfEmpty (c : Prop) [Decidable c] (u a : String) :
    (if c then u ++ a else u) = u ++ (if c then a else "") := by
  split <;> simp

namespace BaseUrlBuilder

/-- `BaseUrlBuilder.validateDimensions`: width and (when defined) height must
be integers between 10 and 4000 inclusive. -/
def validateDimensions (width : Int) (height : Option Int) : Except GenError Unit := do
  if width < 10 || width > 4000 then
    throw (GenError.validationError "width" (toString width)
      "Width must be an integer between 10 and 4000")
  match height with
  | some h =>
    if h < 10 || h > 4000 then
      throw (GenError.validationError "height" (toString h)
        "Height must be an integer between 10 and 4000")
  | none => pure ()

/-- `BaseUrlBuilder.isValidHexColor`: optional leading '#', then exactly 6 or 3
hex digits (the regex from the source). -/
def isValidHexColor (color : String) : Bool :=
  let body := match color.data with
    | '#' :: rest => rest
    | l => l
  (body.length == 6 || body.length == 3) && body.all (fun c => c.isDigit ||
    (c ≥ 'a' && c ≤ 'f') || (c ≥ 'A' && c ≤ 'F'))

/-- `BaseUrlBuilder.isValidCssColor`: case-insensitive membership in a fixed
list of CSS color keywords. -/
def isValidCssColor (color : String) : Bool :=
  ["black", "white", "red", "green", "blue", "yellow", "orange", "purple",
   "pink", "brown", "gray", "grey", "cyan", "magenta", "lime", "maroon",
   "navy", "olive", "silver", "teal", "aqua", "fuchsia",
   "transparent"].contains ⟨color.data.map Char.toLower⟩

/-- `BaseUrlBuilder.isValidColor`: literal "transparent", hex, or CSS name. -/
def isValidColor (color : String) : Bool :=
  color == "transparent" || isValidHexColor color || isValidCssColor color

/-- `BaseUrlBuilder.encodeText`: all spaces to '+', then all newlines to the
two-character sequence backslash-n. -/
def encodeText (text : String) : String :=
  let plussed := text.data.map (fun c => if c = ' ' then '+' else c)
  ⟨plussed.flatMap (fun c =>
     if c = Char.ofNat 10 then [Char.ofNat 92, 'n'] else [c])⟩

end BaseUrlBuilder

/-- `PlaceholdOptions` from src/types. -/
structure PlaceholdOptions where
  format : Option String := none
  backgroundColor : Option String := none
  textColor : Option String := none
  customText : Option String := none
  font : Option String := none
  retina : Option String := none
deriving Repr, DecidableEq

namespace PlaceholdUrlBuilder

def supportedFormats : List String := ["svg", "png", "jpeg", "gif", "webp", "avif"]

def supportedFonts : List String :=
  ["lato", "lora", "montserrat", "noto-sans", "open-sans", "oswald",
   "playfair-display", "poppins", "pt-sans", "raleway", "roboto",
   "source-sans-pro"]

def retinaFormats : List String := ["png", "jpeg", "gif", "webp", "avif"]

/-- `PlaceholdUrlBuilder.validateOptions`, checks in source order: format,
retina-format compatibility, color pairing and color syntax, font, retina
value. -/
def validateOptions (options : Option PlaceholdOptions) : Except GenError Bool := do
  let some o := options | return true
  if truthyStr o.format && !(supportedFormats.contains (o.format.getD "")) then
    throw (GenError.validationError "format" (o.format.getD "")
      ("Format must be one of: " ++ String.intercalate ", " supportedFormats))
  if truthyStr o.retina && truthyStr o.format
      && !(retinaFormats.contains (o.format.getD "")) then
    throw (GenError.validationError "retina"
      ((o.retina.getD "") ++ " with " ++ (o.format.getD ""))
      ("Retina scaling is only supported for: " ++ String.intercalate ", " retinaFormats))
  if truthyStr o.backgroundColor || truthyStr o.textColor then
    if !(truthyStr o.backgroundColor && truthyStr o.textColor) then
      throw (GenError.validationError "colors"
        ("bg: " ++ (if truthyStr o.backgroundColor then o.backgroundColor.getD "" else "missing")
          ++ ", text: " ++ (if truthyStr o.textColor then o.textColor.getD "" else "missing"))
        "Both backgroundColor and textColor must be specified together")
    if !(BaseUrlBuilder.isValidColor (o.backgroundColor.getD "")) then
      throw (GenError.validationError "backgroundColor" (o.backgroundColor.getD "")
        "Invalid color format (use hex codes, CSS color names, or transparent)")
    if !(BaseUrlBuilder.isValidColor (o.textColor.getD "")) then
      throw (GenError.validationError "textColor" (o.textColor.getD "")
        "Invalid color format (use hex codes or CSS color names)")
  if truthyStr o.font && !(supportedFonts.contains (o.font.getD "")) then
    throw (GenError.validationError "font" (o.font.getD "")
      ("Font must be one of: " ++ String.intercalate ", " supportedFonts))
  if truthyStr o.retina && !(["2x", "3x"].contains (o.retina.getD "")) then
    throw (GenError.validationError "retina" (o.retina.getD "")
      "Retina must be 2x or 3x")
  return true

/-- The `queryParams` array built inside `PlaceholdUrlBuilder.buildUrl`:
text first (when customText is truthy), then font (when truthy and not the
default lato), font value with its first hyphen replaced by a plus. -/
def queryParams (o : PlaceholdOptions) : List String :=
  (if truthyStr o.customText
   then ["text=" ++ BaseUrlBuilder.encodeText (o.customText.getD "")] else []) ++
  (if truthyStr o.font && (o.font.getD "" != "lato")
   then ["font=" ++ jsReplaceFirstHyphen (o.font.getD "")] else [])

/-- `PlaceholdUrlBuilder.buildUrl`: size, retina suffix, color pair, format
extension, then query string. -/
def buildUrl (baseUrl : String) (width : Int) (height : Option Int)
    (options : Option PlaceholdOptions) : Except GenError String := do
  let _ ← BaseUrlBuilder.validateDimensions width height
  let _ ← validateOptions options
  let o := options.getD {}
  let url := baseUrl ++ "/" ++ toString width
  let url := if truthyInt height && (height.getD 0 != width)
             then url ++ "x" ++ toString (height.getD 0) else url
  let url := if truthyStr o.retina then url ++ "@" ++ o.retina.getD "" else url
  let url := if truthyStr o.backgroundColor && truthyStr o.textColor
             then url ++ "/" ++ o.backgroundColor.getD "" ++ "/" ++ o.textColor.getD ""
             else url
  let url := if truthyStr o.format && (o.format.getD "" != "svg")
             then url ++ "." ++ o.format.getD "" else url
  let qp := queryParams o
  let url := if qp.length > 0 then url ++ "?" ++ String.intercalate "&" qp else url
  return url

end PlaceholdUrlBuilder

/-- `PicsumOptions` from src/types. -/
structure PicsumOptions where
  format : Option String := none
  imageId : Option Int := none
  seed : Option String := none
  grayscale : Option Bool := none
  blur : Option Int := none
  random : Option Int := none
deriving Repr, DecidableEq

/-- JavaScript String.prototype.trim: strip leading and trailing whitespace. -/
def jsTrim (s : String) : String :=
  ⟨(s.data.dropWhile Char.isWhitespace).reverse.dropWhile Char.isWhitespace |>.reverse⟩

/-- One byte of a UTF-8 encoding as an uppercase percent-escape, e.g. 32 ↦ "%20". -/
def percentByte (n : Nat) : List Char :=
  let hexDigit := fun (d : Nat) =>
    if d < 10 then Char.ofNat (48 + d) else Char.ofNat (55 + d)
  ['%', hexDigit (n / 16 % 16), hexDigit (n % 16)]

/-- UTF-8 bytes of a single character. -/
def utf8Bytes (c : Char) : List Nat :=
  let n := c.toNat
  if n < 128 then [n]
  else if n < 2048 then [192 + n / 64, 128 + n % 64]
  else if n < 65536 then [224 + n / 4096, 128 + n / 64 % 64, 128 + n % 64]
  else [240 + n / 262144, 128 + n / 4096 % 64, 128 + n / 64 % 64, 128 + n % 64]

/-- JavaScript encodeURIComponent: ASCII letters, digits and `- _ . ! ~ * ( )`
and the apostrophe pass through; every other character is percent-encoded
byte-by-byte in UTF-8 with uppercase hex digits. -/
def encodeURIComponent (s : String) : String :=
  ⟨s.data.flatMap (fun c =>
     if c.isAlphanum || c = '-' || c = '_' || c = '.' || c = '!' || c = '~'
        || c = '*' || c = Char.ofNat 39 || c = '(' || c = ')'
     then [c]
     else (utf8Bytes c).flatMap percentByte)⟩

namespace PicsumUrlBuilder

def supportedFormats : List String := ["jpg", "webp"]

/-- `PicsumUrlBuilder.validateOptions`, checks in source order: format,
imageId, seed, blur, random, then the imageId/seed mutual exclusion. -/
def validateOptions (options : Option PicsumOptions) : Except GenError Bool := do
  let some o := options | return true
  if truthyStr o.format && !(supportedFormats.contains (o.format.getD "")) then
    throw (GenError.validationError "format" (o.format.getD "")
      ("Format must be one of: " ++ String.intercalate ", " supportedFormats))
  if o.imageId.isSome then
    if (o.imageId.getD 0) < 0 then
      throw (GenError.validationError "imageId" (toString (o.imageId.getD 0))
        "Image ID must be a non-negative integer")
  if o.seed.isSome then
    if (jsTrim (o.seed.getD "")).data.length == 0 then
      throw (GenError.validationError "seed" (o.seed.getD "")
        "Seed must be a non-empty string")
  if o.blur.isSome then
    if (o.blur.getD 0) < 1 || (o.blur.getD 0) > 10 then
      throw (GenError.validationError "blur" (toString (o.blur.getD 0))
        "Blur must be an integer between 1 and 10")
  if o.random.isSome then
    if (o.random.getD 0) < 0 then
      throw (GenError.validationError "random" (toString (o.random.getD 0))
        "Random must be a non-negative integer")
  if o.imageId.isSome && o.seed.isSome then
    throw (GenError.validationError "options" "imageId and seed both specified"
      "Cannot specify both imageId and seed - they are mutually exclusive")
  return true

/-- The `queryParams` array built inside `PicsumUrlBuilder.buildUrl`:
grayscale (bare flag), then blur (bare for value 0 or 1, valued otherwise),
then random (always valued when defined, a zero included). -/
def queryParams (o : PicsumOptions) : List String :=
  (if truthyBool o.grayscale then ["grayscale"] else []) ++
  (match o.blur with
   | some b => if b == 0 || b == 1 then ["blur"] else ["blur=" ++ toString b]
   | none => []) ++
  (match o.random with
   | some r => ["random=" ++ toString r]
   | none => [])

/-- `PicsumUrlBuilder.buildUrl`: optional id or seed prefix (id wins, both
tested by truthiness), then width, height when truthy and different from
width, format extension, then the effects query string. -/
def buildUrl (baseUrl : String) (width : Int) (height : Option Int)
    (options : Option PicsumOptions) : Except GenError String := do
  let _ ← BaseUrlBuilder.validateDimensions width height
  let _ ← validateOptions options
  let o := options.getD {}
  let url := baseUrl
  let url := if truthyInt o.imageId then url ++ "/id/" ++ toString (o.imageId.getD 0)
             else if truthyStr o.seed then url ++ "/seed/" ++ encodeURIComponent (o.seed.getD "")
             else url
  let url := url ++ "/" ++ toString width
  let url := if truthyInt height && (height.getD 0 != width)
             then url ++ "/" ++ toString (height.getD 0) else url
  let url := if truthyStr o.format then url ++ "." ++ o.format.getD "" else url
  let qp := queryParams o
  let url := if qp.length > 0 then url ++ "?" ++ String.intercalate "&" qp else url
  return url

end PicsumUrlBuilder

/-- `ValidationConstraints` from src/types. -/
structure ValidationConstraints where
  minWidth : Int
  maxWidth : Int
  minHeight : Int
  maxHeight : Int
  supportedProviders : List String
deriving Repr, DecidableEq

/-- `DEFAULT_CONSTRAINTS` from src/config. -/
def DEFAULT_CONSTRAINTS : ValidationConstraints :=
  { minWidth := 1, maxWidth := 10000, minHeight := 1, maxHeight := 10000,
    supportedProviders := ["placehold", "lorem-picsum"] }

/-- `ImagePlaceholderParams` from src/types. The provider field arrives as an
unknown value; `none` models a missing or non-string provider, `some ""` an
empty one. -/
structure ImagePlaceholderParams where
  provider : Option String
  width : Int
  height : Option Int := none
  placeholdOptions : Option PlaceholdOptions := none
  picsumOptions : Option PicsumOptions := none
deriving Repr, DecidableEq

namespace PlaceholderValidator

/-- `PlaceholderValidator.validateProvider`: non-empty string, then membership
in the supported-providers set; the second failure is a ProviderError
carrying the joined supported list in its message. -/
def validateProvider (c : ValidationConstraints) (provider : Option String) :
    Except GenError Unit := do
  if !(truthyStr provider) then
    throw (GenError.validationError "provider" (provider.getD "")
      "Must be a non-empty string")
  if !(c.supportedProviders.contains (provider.getD "")) then
    throw (GenError.providerError (provider.getD "")
      ("Unsupported provider. Supported providers: "
        ++ String.intercalate ", " c.supportedProviders))

/-- `PlaceholderValidator.validateDimension`: integer range check against the
constraint bounds of the named axis. -/
def validateDimension (c : ValidationConstraints) (dimensionName : String)
    (value : Int) : Except GenError Unit := do
  let minConstraint := if dimensionName == "width" then c.minWidth else c.minHeight
  let maxConstraint := if dimensionName == "width" then c.maxWidth else c.maxHeight
  if value < minConstraint || value > maxConstraint then
    throw (GenError.validationError dimensionName (toString value)
      ("Must be between " ++ toString minConstraint ++ " and "
        ++ toString maxConstraint ++ " pixels"))

/-- `PlaceholderValidator.validateProviderOptions`: provider-specific option
objects must match the declared provider. -/
def validateProviderOptions (params : ImagePlaceholderParams) :
    Except GenError Unit := do
  if params.provider == some "placehold" && params.picsumOptions.isSome then
    throw (GenError.validationError "picsumOptions" "object"
      "Cannot use picsum options with placehold provider")
  if params.provider == some "lorem-picsum" && params.placeholdOptions.isSome then
    throw (GenError.validationError "placeholdOptions" "object"
      "Cannot use placehold options with lorem-picsum provider")

/-- `PlaceholderValidator.validateParams`: provider, width, height when
defined, then the cross-field option check, failing on the first violation. -/
def validateParams (c : ValidationConstraints) (params : ImagePlaceholderParams) :
    Except GenError Unit := do
  validateProvider c params.provider
  validateDimension c "width" params.width
  match params.height with
  | some h => validateDimension c "height" h
  | none => pure ()
  validateProviderOptions params

end PlaceholderValidator

/-- `ImagePlaceholderResult` from src/types: the generator's return record.
The two option fields model `appliedOptions`, whose keys are included only
when the corresponding options object was supplied. -/
structure ImagePlaceholderResult where
  url : String
  provider : String
  width : Int
  height : Int
  placeholdOptions : Option PlaceholdOptions
  picsumOptions : Option PicsumOptions
deriving Repr, DecidableEq

namespace PlaceholderGenerator

/-- The builder-based `PlaceholderGenerator.generatePlaceholder`: validate,
dispatch on provider to the factory-built URL builder (the factory binds
placehold to https://placehold.co and lorem-picsum to https://picsum.photos),
compute effective height as `height || width`, and package the result. The
final provider branch is the defensive unreachable arm from the source. -/
def generatePlaceholder (c : ValidationConstraints) (params : ImagePlaceholderParams) :
    Except GenError ImagePlaceholderResult := do
  PlaceholderValidator.validateParams c params
  let effectiveHeight := if truthyInt params.height then params.height.getD 0 else params.width
  let url ←
    if params.provider == some "placehold" then
      PlaceholdUrlBuilder.buildUrl "https://placehold.co" params.width params.height
        params.placeholdOptions
    else if params.provider == some "lorem-picsum" then
      PicsumUrlBuilder.buildUrl "https://picsum.photos" params.width params.height
        params.picsumOptions
    else
      throw (GenError.providerError (params.provider.getD "") "Unsupported provider")
  return { url := url, provider := params.provider.getD "", width := params.width,
           height := effectiveHeight, placeholdOptions := params.placeholdOptions,
           picsumOptions := params.picsumOptions }

end PlaceholderGenerator

/-- A log record as emitted through the Logger interface. -/
structure LogRecord where
  level : String
  message : String
deriving Repr, DecidableEq

/-- `PlaceholdUrlBuilder.buildUrl` with its logger side channel made explicit:
the call reads the incoming log state only to append to it; on success it
emits the single debug record the source emits. -/
def placeholdBuildUrlLogged (baseUrl : String) (width : Int) (height : Option Int)
    (options : Option PlaceholdOptions) (log : List LogRecord) :
    Except GenError String × List LogRecord :=
  match PlaceholdUrlBuilder.buildUrl baseUrl width height options with
  | Except.ok url => (Except.ok url, log ++ [⟨"debug", "Built placehold.co URL"⟩])
  | Except.error e => (Except.error e, log)

/-- `PicsumUrlBuilder.buildUrl` with its logger side channel made explicit. -/
def picsumBuildUrlLogged (baseUrl : String) (width : Int) (height : Option Int)
    (options : Option PicsumOptions) (log : List LogRecord) :
    Except GenError String × List LogRecord :=
  match PicsumUrlBuilder.buildUrl baseUrl width height options with
  | Except.ok url => (Except.ok url, log ++ [⟨"debug", "Built picsum.photos URL"⟩])
  | Except.error e => (Except.error e, log)

/-- C1: for the placehold builder, buildUrl at width 1200, height 630 with
retina 2x, background f9fafb, text color 2563eb, format png, custom text
DeepakNess and font playfair-display returns exactly the spec URL, with
components in the order size, retina suffix, color pair, format extension,
then query parameters text before font joined by an ampersand. -/
theorem C1_full_combination :
    PlaceholdUrlBuilder.buildUrl "https://placehold.co" 1200 (some 630)
      (some { retina := some "2x", backgroundColor := some "f9fafb",
              textColor := some "2563eb", format := some "png",
              customText := some "DeepakNess", font := some "playfair-display" }) =
    Except.ok
      "https://placehold.co/1200x630@2x/f9fafb/2563eb.png?text=DeepakNess&font=playfair+display" := by
  decide

/-- C2 (counterexample): the claim says every options object with retina
present and format absent fails validation; in the code the retina/format
compatibility check runs only when format is present, so retina 2x with no
format passes validation and buildUrl yields a size followed by the at-sign
suffix with no extension. -/
theorem C2_counterexample :
    PlaceholdUrlBuilder.validateOptions (some { retina := some "2x" }) = Except.ok true ∧
    PlaceholdUrlBuilder.buildUrl "https://placehold.co" 100 none
        (some { retina := some "2x" }) =
      Except.ok "https://placehold.co/100@2x" := by
  decide

/-- C2 (amended): retina with an explicitly selected svg format always fails
validation, whatever the other fields are; retina with format absent is not
rejected; retina 2x with format png succeeds, the URL carrying the at-2x
suffix directly after the size and the png extension after the colors. -/
theorem C2_retina_format_coupling :
    (∀ o : PlaceholdOptions, truthyStr o.retina = true → o.format = some "svg" →
      (PlaceholdUrlBuilder.validateOptions (some o)).isOk = false) ∧
    PlaceholdUrlBuilder.validateOptions (some { retina := some "2x" }) = Except.ok true ∧
    PlaceholdUrlBuilder.buildUrl "https://placehold.co" 100 (some 50)
        (some { retina := some "2x", format := some "png" }) =
      Except.ok "https://placehold.co/100x50@2x.png" := by
  refine ⟨?_, by decide, by decide⟩
  intro o hr hf
  simp [PlaceholdUrlBuilder.validateOptions, hf, hr,
    PlaceholdUrlBuilder.supportedFormats, PlaceholdUrlBuilder.retinaFormats]

/-- C2 witness: the universally quantified part of C2_retina_format_coupling
applied at the concrete options object with retina 2x and format svg. -/
theorem C2_witness :
    (PlaceholdUrlBuilder.validateOptions
      (some { retina := some "2x", format := some "svg" })).isOk = false :=
  C2_retina_format_coupling.1 { retina := some "2x", format := some "svg" }
    (by decide) rfl

/-- C3 (counterexample): the claim says a width exactly at the outer minimum
of 1 succeeds through the full generation path; the builder re-validates
against 10 to 4000, so generatePlaceholder at width 1 fails there. -/
theorem C3_counterexample :
    PlaceholderGenerator.generatePlaceholder DEFAULT_CONSTRAINTS
      { provider := some "placehold", width := 1 } =
    Except.error (GenError.validationError "width" "1"
      "Width must be an integer between 10 and 4000") := by
  decide

/-- C3 (amended): at the outer validator, width exactly 1 or 10000 passes and
0 or 10001 fails; the builder layer independently re-validates against its
own inclusive 10 to 4000 bounds, so the full generation path fails at widths
1 and 10000 and succeeds at 10 and 4000. -/
theorem C3_layered_dimension_bounds :
    PlaceholderValidator.validateParams DEFAULT_CONSTRAINTS
      { provider := some "placehold", width := 1 } = Except.ok () ∧
    PlaceholderValidator.validateParams DEFAULT_CONSTRAINTS
      { provider := some "placehold", width := 10000 } = Except.ok () ∧
    (PlaceholderValidator.validateParams DEFAULT_CONSTRAINTS
      { provider := some "placehold", width := 0 }).isOk = false ∧
    (PlaceholderValidator.validateParams DEFAULT_CONSTRAINTS
      { provider := some "placehold", width := 10001 }).isOk = false ∧
    (PlaceholderGenerator.generatePlaceholder DEFAULT_CONSTRAINTS
      { provider := some "placehold", width := 1 }).isOk = false ∧
    (PlaceholderGenerator.generatePlaceholder DEFAULT_CONSTRAINTS
      { provider := some "placehold", width := 10000 }).isOk = false ∧
    (PlaceholderGenerator.generatePlaceholder DEFAULT_CONSTRAINTS
      { provider := some "placehold", width := 10 }).isOk = true ∧
    (PlaceholderGenerator.generatePlaceholder DEFAULT_CONSTRAINTS
      { provider := some "placehold", width := 4000 }).isOk = true ∧
    (∀ w : Int, BaseUrlBuilder.validateDimensions w none = Except.ok () ↔
      10 ≤ w ∧ w ≤ 4000) := by
  refine ⟨by decide, by decide, by decide, by decide, by decide, by decide,
    by decide, by decide, ?_⟩
  intro w
  simp only [BaseUrlBuilder.validateDimensions]
  split <;> rename_i hcond
  · simp only [Bool.or_eq_true, decide_eq_true_eq] at hcond
    constructor
    · intro h
      simp [throw, throwThe, MonadExceptOf.throw, Except.bind] at h
    · omega
  · simp only [Bool.or_eq_true, decide_eq_true_eq] at hcond
    push_neg at hcond
    constructor
    · intro _
      omega
    · intro _
      rfl

/-- C4: for the picsum builder, effects appear in the fixed order grayscale,
blur, random joined by ampersands; blur 1 is emitted bare, blur 2 to 10 as a
valued parameter, blur outside 1 to 10 (0 and 11 included) fails validation
for every options object carrying it, and random is emitted whenever
defined, the literal 0 included. -/
theorem C4_blur_random_effects :
    PicsumUrlBuilder.buildUrl "https://picsum.photos" 200 none (some { blur := some 1 }) =
      Except.ok "https://picsum.photos/200?blur" ∧
    PicsumUrlBuilder.buildUrl "https://picsum.photos" 200 none (some { blur := some 2 }) =
      Except.ok "https://picsum.photos/200?blur=2" ∧
    (PicsumUrlBuilder.buildUrl "https://picsum.photos" 200 none
      (some { blur := some 0 })).isOk = false ∧
    (PicsumUrlBuilder.buildUrl "https://picsum.photos" 200 none
      (some { blur := some 11 })).isOk = false ∧
    PicsumUrlBuilder.buildUrl "https://picsum.photos" 200 none (some { random := some 0 }) =
      Except.ok "https://picsum.photos/200?random=0" ∧
    PicsumUrlBuilder.buildUrl "https://picsum.photos" 200 none
        (some { grayscale := some true, blur := some 5, random := some 7 }) =
      Except.ok "https://picsum.photos/200?grayscale&blur=5&random=7" ∧
    (∀ (o : PicsumOptions) (b : Int), o.blur = some b → b < 1 ∨ 10 < b →
      (PicsumUrlBuilder.validateOptions (some o)).isOk = false) := by
  refine ⟨by decide, by decide, by decide, by decide, by decide, by decide, ?_⟩
  intro o b hb hrange
  simp only [PicsumUrlBuilder.validateOptions, hb]
  simp [hrange]
  repeat' split
  all_goals simp

/-- C4 witness: the universally quantified part of C4_blur_random_effects
applied at blur 0. -/
theorem C4_witness :
    (PicsumUrlBuilder.validateOptions (some { blur := some 0 })).isOk = false :=
  C4_blur_random_effects.2.2.2.2.2.2 { blur := some 0 } 0 rfl (Or.inl (by decide))

/-- C5 (counterexample): the claim says every internal hyphen of the font
name is replaced by a plus, so source-sans-pro would yield
font=source+sans+pro; the code replaces only the first occurrence, yielding
font=source+sans-pro. -/
theorem C5_counterexample :
    PlaceholdUrlBuilder.buildUrl "https://placehold.co" 100 none
        (some { font := some "source-sans-pro" }) =
      Except.ok "https://placehold.co/100?font=source+sans-pro" ∧
    ("https://placehold.co/100?font=source+sans-pro" : String) ≠
      "https://placehold.co/100?font=source+sans+pro" := by
  constructor
  · decide
  · decide

/-- C5 (amended): the font query parameter is appended only when the font
option is present and differs from the default lato, and its query value is
the font name with only its FIRST hyphen replaced by a plus: for every
supported non-lato font name the URL ends in the first-hyphen-replaced
value; playfair-display yields playfair+display, source-sans-pro yields
source+sans-pro, and lato or an absent font yields no query string. -/
theorem C5_font_first_hyphen :
    (∀ f : String, f ≠ "" → f ≠ "lato" →
      PlaceholdUrlBuilder.supportedFonts.contains f = true →
      PlaceholdUrlBuilder.buildUrl "https://placehold.co" 100 none
          (some { font := some f }) =
        Except.ok ("https://placehold.co/100?font=" ++ jsReplaceFirstHyphen f)) ∧
    PlaceholdUrlBuilder.buildUrl "https://placehold.co" 100 none
        (some { font := some "playfair-display" }) =
      Except.ok "https://placehold.co/100?font=playfair+display" ∧
    PlaceholdUrlBuilder.buildUrl "https://placehold.co" 100 none
        (some { font := some "source-sans-pro" }) =
      Except.ok "https://placehold.co/100?font=source+sans-pro" ∧
    PlaceholdUrlBuilder.buildUrl "https://placehold.co" 100 none
        (some { font := some "lato" }) =
      Except.ok "https://placehold.co/100" ∧
    PlaceholdUrlBuilder.buildUrl "https://placehold.co" 100 none none =
      Except.ok "https://placehold.co/100" := by
  refine ⟨?_, by decide, by decide, by decide, by decide⟩
  intro f hne hlato hsupp
  have hmem : f ∈ PlaceholdUrlBuilder.supportedFonts := by
    simpa using hsupp
  have h100 : toString (100 : Int) = "100" := by decide
  simp [PlaceholdUrlBuilder.buildUrl, PlaceholdUrlBuilder.validateOptions,
    BaseUrlBuilder.validateDimensions, PlaceholdUrlBuilder.queryParams,
    hmem, hne, hlato, h100, ← String.append_assoc]

/-- C5 witness: the universally quantified part of C5_font_first_hyphen
applied at the font name source-sans-pro. -/
theorem C5_witness :
    PlaceholdUrlBuilder.buildUrl "https://placehold.co" 100 none
        (some { font := some "source-sans-pro" }) =
      Except.ok ("https://placehold.co/100?font=" ++ jsReplaceFirstHyphen "source-sans-pro") :=
  C5_font_first_hyphen.1 "source-sans-pro" (by decide) (by decide) (by decide)

/-- C6 (counterexample): the claim says the id prefix is emitted for every
valid imageId including 0; the code tests imageId by truthiness, so imageId
0 passes validation yet produces a URL with no id segment at all. -/
theorem C6_counterexample :
    PicsumUrlBuilder.validateOptions (some { imageId := some 0 }) = Except.ok true ∧
    PicsumUrlBuilder.buildUrl "https://picsum.photos" 200 none
        (some { imageId := some 0 }) =
      Except.ok "https://picsum.photos/200" ∧
    List.isPrefixOf "https://picsum.photos/id/0".data
      "https://picsum.photos/200".data = false := by
  decide

/-- C6 (amended): whenever buildUrl succeeds with a present and nonzero
imageId the URL starts with the base followed by the id segment; imageId 0
passes validation but yields no id segment; with imageId absent and a
non-empty seed the URL starts with the base followed by the seed segment,
the seed value percent-encoded. -/
theorem C6_id_seed_prefix :
    (∀ (w : Int) (h : Option Int) (o : PicsumOptions) (n : Int) (url : String),
      o.imageId = some n → n ≠ 0 →
      PicsumUrlBuilder.buildUrl "https://picsum.photos" w h (some o) = Except.ok url →
      ∃ rest, url = "https://picsum.photos/id/" ++ toString n ++ rest) ∧
    (∀ (w : Int) (h : Option Int) (o : PicsumOptions) (s : String) (url : String),
      o.imageId = none → o.seed = some s → s ≠ "" →
      PicsumUrlBuilder.buildUrl "https://picsum.photos" w h (some o) = Except.ok url →
      ∃ rest, url = "https://picsum.photos/seed/" ++ encodeURIComponent s ++ rest) ∧
    PicsumUrlBuilder.validateOptions (some { imageId := some 0 }) = Except.ok true ∧
    PicsumUrlBuilder.buildUrl "https://picsum.photos" 200 none
        (some { imageId := some 237 }) =
      Except.ok "https://picsum.photos/id/237/200" ∧
    PicsumUrlBuilder.buildUrl "https://picsum.photos" 200 none
        (some { seed := some "my seed" }) =
      Except.ok "https://picsum.photos/seed/my%20seed/200" := by
  refine ⟨?_, ?_, by decide, by decide, by decide⟩
  · intro w h o n url hid hnz hok
    have hnzb : (n != 0) = true := bne_iff_ne.mpr hnz
    simp only [PicsumUrlBuilder.buildUrl] at hok
    cases hdim : BaseUrlBuilder.validateDimensions w h with
    | error e => rw [hdim] at hok; simp at hok
    | ok _ =>
    rw [hdim] at hok
    cases hval : PicsumUrlBuilder.validateOptions (some o) with
    | error e => rw [hval] at hok; simp at hok
    | ok _ =>
    rw [hval] at hok
    simp only [okBind, Option.getD_some, hid, hnzb, truthyInt_some, if_pos,
      Bool.true_eq, appendIfEmpty, pureEqOk] at hok
    subst hok
    rw [show ("https://picsum.photos/id/" : String) =
      "https://picsum.photos" ++ "/id/" from by decide]
    repeat' split
    all_goals exact ⟨_, by simp only [String.append_assoc]; rfl⟩
  · intro w h o s url hid hseed hne hok
    have hneb : (s == "") = false := beq_eq_false_iff_ne.mpr hne
    simp only [PicsumUrlBuilder.buildUrl] at hok
    cases hdim : BaseUrlBuilder.validateDimensions w h with
    | error e => rw [hdim] at hok; simp at hok
    | ok _ =>
    rw [hdim] at hok
    cases hval : PicsumUrlBuilder.validateOptions (some o) with
    | error e => rw [hval] at hok; simp at hok
    | ok _ =>
    rw [hval] at hok
    simp only [okBind, Option.getD_some, hid, hseed, hneb, truthyInt_none,
      truthyStr_some, Bool.false_eq_true, if_neg, Bool.not_false, if_pos,
      appendIfEmpty, pureEqOk] at hok
    subst hok
    rw [show ("https://picsum.photos/seed/" : String) =
      "https://picsum.photos" ++ "/seed/" from by decide]
    repeat' split
    all_goals try contradiction
    all_goals exact ⟨_, by simp only [String.append_assoc]; rfl⟩

/-- C6 witness: the nonzero-imageId part of C6_id_seed_prefix applied at
imageId 237, width 200. -/
theorem C6_witness :
    ∃ rest, "https://picsum.photos/id/237/200" =
      "https://picsum.photos/id/" ++ toString (237 : Int) ++ rest :=
  C6_id_seed_prefix.1 200 none { imageId := some 237 } 237
    "https://picsum.photos/id/237/200" rfl (by decide) (by decide)

/-- If the outer validator accepts a request whose height is present, that
height lies within the default bounds 1 to 10000; in particular it is
nonzero. -/
theorem validateParamsHeightBounds (p : ImagePlaceholderParams) (h : Int)
    (hh : p.height = some h)
    (hv : PlaceholderValidator.validateParams DEFAULT_CONSTRAINTS p = Except.ok ()) :
    1 ≤ h ∧ h ≤ 10000 := by
  simp only [PlaceholderValidator.validateParams, hh] at hv
  cases hprov : PlaceholderValidator.validateProvider DEFAULT_CONSTRAINTS p.provider with
  | error e => rw [hprov] at hv; simp at hv
  | ok _ =>
  rw [hprov] at hv
  simp only [okBind] at hv
  cases hw : PlaceholderValidator.validateDimension DEFAULT_CONSTRAINTS "width" p.width with
  | error e => rw [hw] at hv; simp at hv
  | ok _ =>
  rw [hw] at hv
  simp only [okBind] at hv
  cases hd : PlaceholderValidator.validateDimension DEFAULT_CONSTRAINTS "height" h with
  | error e => rw [hd] at hv; simp at hv
  | ok _ =>
  rw [PlaceholderValidator.validateDimension] at hd
  simp only [DEFAULT_CONSTRAINTS] at hd
  split at hd <;>
    (split at hd
     · simp at hd
     · rename_i hcond
       simp at hcond
       omega)

/-- C7: a placehold request of width 300 with no height yields the square
URL with no height suffix and result dimensions 300 by 300; for any valid
width and height the height suffix appears exactly when the height differs
from the width; and on every successful generation the result's height is
the given height, defaulting to the width, and the width is echoed. -/
theorem C7_square_default :
    PlaceholderGenerator.generatePlaceholder DEFAULT_CONSTRAINTS
      { provider := some "placehold", width := 300 } =
    Except.ok { url := "https://placehold.co/300", provider := "placehold",
                width := 300, height := 300,
                placeholdOptions := none, picsumOptions := none } ∧
    (∀ w h : Int, 10 ≤ w → w ≤ 4000 → 10 ≤ h → h ≤ 4000 →
      PlaceholdUrlBuilder.buildUrl "https://placehold.co" w (some h) none =
        Except.ok (if h = w then "https://placehold.co" ++ "/" ++ toString w
          else "https://placehold.co" ++ "/" ++ toString w ++ "x" ++ toString h)) ∧
    (∀ (p : ImagePlaceholderParams) (r : ImagePlaceholderResult),
      PlaceholderGenerator.generatePlaceholder DEFAULT_CONSTRAINTS p = Except.ok r →
      r.height = p.height.getD p.width ∧ r.width = p.width) := by
  refine ⟨by decide, ?_, ?_⟩
  · intro w h hw1 hw2 hh1 hh2
    have h1 : (w < 10 || w > 4000) = false := by simp; omega
    have h2 : (h < 10 || h > 4000) = false := by simp; omega
    have hdim : BaseUrlBuilder.validateDimensions w (some h) = Except.ok () := by
      rw [BaseUrlBuilder.validateDimensions]
      simp [h1, h2]
    have hnz : (h != 0) = true := bne_iff_ne.mpr (by omega)
    by_cases heq : h = w
    · subst heq
      have hfw : (h != h) = false := by simp
      simp [PlaceholdUrlBuilder.buildUrl, hdim, PlaceholdUrlBuilder.validateOptions,
        PlaceholdUrlBuilder.queryParams, hnz, hfw]
    · have hne : (h != w) = true := bne_iff_ne.mpr heq
      simp [PlaceholdUrlBuilder.buildUrl, hdim, PlaceholdUrlBuilder.validateOptions,
        PlaceholdUrlBuilder.queryParams, heq, hnz, hne, String.append_assoc]
  · intro p r hok
    simp only [PlaceholderGenerator.generatePlaceholder] at hok
    cases hv : PlaceholderValidator.validateParams DEFAULT_CONSTRAINTS p with
    | error e => rw [hv] at hok; simp at hok
    | ok u =>
    cases u
    rw [hv] at hok
    simp only [okBind] at hok
    have hheight : (if truthyInt p.height then p.height.getD 0 else p.width) =
        p.height.getD p.width := by
      cases hp : p.height with
      | none => simp
      | some hh =>
        have hb := validateParamsHeightBounds p hh hp hv
        have hnz : (hh != 0) = true := bne_iff_ne.mpr (by omega)
        simp [hnz]
    split at hok
    · cases hb : PlaceholdUrlBuilder.buildUrl "https://placehold.co" p.width p.height
        p.placeholdOptions with
      | error e => rw [hb] at hok; simp at hok
      | ok u =>
      rw [hb] at hok
      simp only [okBind, pureEqOk] at hok
      subst hok
      exact ⟨hheight, rfl⟩
    split at hok
    · cases hb : PicsumUrlBuilder.buildUrl "https://picsum.photos" p.width p.height
        p.picsumOptions with
      | error e => rw [hb] at hok; simp at hok
      | ok u =>
      rw [hb] at hok
      simp only [okBind, pureEqOk] at hok
      subst hok
      exact ⟨hheight, rfl⟩
    · simp at hok

/-- C7 witness: the height-suffix part of C7_square_default applied at width
300 and equal height 300, and the result-shape part applied to the concrete
width-300 request. -/
theorem C7_witness :
    PlaceholdUrlBuilder.buildUrl "https://placehold.co" 300 (some 300) none =
      Except.ok (if (300 : Int) = 300 then "https://placehold.co" ++ "/" ++ toString (300 : Int)
        else "https://placehold.co" ++ "/" ++ toString (300 : Int) ++ "x" ++ toString (300 : Int)) :=
  C7_square_default.2.1 300 300 (by decide) (by decide) (by decide) (by decide)

/-- The first list is a Boolean prefix of itself followed by anything. -/
theorem isPrefixOfAppendSelf (a b : List Char) :
    List.isPrefixOf a (a ++ b) = true := by
  induction a with
  | nil => simp [List.isPrefixOf]
  | cons c cs ih => simp [List.isPrefixOf, ih]

/-- A query parameter starting with font= never starts with text=. -/
theorem textPrefixFalseProp (x : String) :
    ¬ ("text=".data <+: ("font=" ++ x).data) := by
  rw [String.data_append]
  intro habs
  obtain ⟨t, ht⟩ := habs
  simp at ht

/-- C8: a missing or empty provider raises a validation failure naming the
provider field; a well-formed provider outside the supported set raises the
distinct provider-unsupported error carrying the joined supported list, and
this happens for every request, out-of-range widths included, so the
provider check precedes the dimension checks. -/
theorem C8_provider_fail_fast :
    (∀ p : ImagePlaceholderParams, p.provider = none ∨ p.provider = some "" →
      PlaceholderValidator.validateParams DEFAULT_CONSTRAINTS p =
        Except.error (GenError.validationError "provider" ""
          "Must be a non-empty string")) ∧
    (∀ (p : ImagePlaceholderParams) (s : String), p.provider = some s → s ≠ "" →
      DEFAULT_CONSTRAINTS.supportedProviders.contains s = false →
      PlaceholderValidator.validateParams DEFAULT_CONSTRAINTS p =
        Except.error (GenError.providerError s
          "Unsupported provider. Supported providers: placehold, lorem-picsum")) := by
  constructor
  · intro p hp
    cases hp with
    | inl h =>
      simp [PlaceholderValidator.validateParams,
        PlaceholderValidator.validateProvider, h]
    | inr h =>
      simp [PlaceholderValidator.validateParams,
        PlaceholderValidator.validateProvider, h]
  · intro p s hp hne hmem
    have hneb : (s == "") = false := beq_eq_false_iff_ne.mpr hne
    simp only [DEFAULT_CONSTRAINTS] at hmem
    simp at hmem
    obtain ⟨hs1, hs2⟩ := hmem
    have hmsg : ("Unsupported provider. Supported providers: "
        ++ String.intercalate ", " ["placehold", "lorem-picsum"]) =
        "Unsupported provider. Supported providers: placehold, lorem-picsum" := by
      decide
    simp [PlaceholderValidator.validateParams,
      PlaceholderValidator.validateProvider, hp, hneb, hs1, hs2,
      DEFAULT_CONSTRAINTS, hmsg]

/-- C8 witness: the provider-unsupported part of C8_provider_fail_fast at a
request whose width 999999 is also out of range, showing the provider error
wins. -/
theorem C8_witness :
    PlaceholderValidator.validateParams DEFAULT_CONSTRAINTS
      { provider := some "bogus", width := 999999 } =
    Except.error (GenError.providerError "bogus"
      "Unsupported provider. Supported providers: placehold, lorem-picsum") :=
  C8_provider_fail_fast.2 { provider := some "bogus", width := 999999 } "bogus"
    rfl (by decide) (by decide)

/-- C9: with the logger side channel made explicit, both builders return the
same URL value whatever the prior log state, only ever append to the log,
and the generator is a pure function of its arguments: repeated calls with
identical inputs agree. -/
theorem C9_determinism :
    (∀ (base : String) (w : Int) (h : Option Int) (o : Option PlaceholdOptions)
        (s1 s2 : List LogRecord),
      (placeholdBuildUrlLogged base w h o s1).1 =
        (placeholdBuildUrlLogged base w h o s2).1) ∧
    (∀ (base : String) (w : Int) (h : Option Int) (o : Option PicsumOptions)
        (s1 s2 : List LogRecord),
      (picsumBuildUrlLogged base w h o s1).1 =
        (picsumBuildUrlLogged base w h o s2).1) ∧
    (∀ (base : String) (w : Int) (h : Option Int) (o : Option PlaceholdOptions)
        (s : List LogRecord), ∃ emitted,
      (placeholdBuildUrlLogged base w h o s).2 = s ++ emitted) ∧
    (∀ (base : String) (w : Int) (h : Option Int) (o : Option PicsumOptions)
        (s : List LogRecord), ∃ emitted,
      (picsumBuildUrlLogged base w h o s).2 = s ++ emitted) ∧
    (∀ (base : String) (w : Int) (h : Option Int) (o : Option PlaceholdOptions)
        (s : List LogRecord),
      (placeholdBuildUrlLogged base w h o
          ((placeholdBuildUrlLogged base w h o s).2)).1 =
        (placeholdBuildUrlLogged base w h o s).1) ∧
    (∀ (c : ValidationConstraints) (p : ImagePlaceholderParams),
      PlaceholderGenerator.generatePlaceholder c p =
        PlaceholderGenerator.generatePlaceholder c p) := by
  refine ⟨?_, ?_, ?_, ?_, ?_, fun c p => rfl⟩
  · intro base w h o s1 s2
    unfold placeholdBuildUrlLogged
    cases PlaceholdUrlBuilder.buildUrl base w h o <;> rfl
  · intro base w h o s1 s2
    unfold picsumBuildUrlLogged
    cases PicsumUrlBuilder.buildUrl base w h o <;> rfl
  · intro base w h o s
    unfold placeholdBuildUrlLogged
    cases PlaceholdUrlBuilder.buildUrl base w h o with
    | error e => exact ⟨[], by simp⟩
    | ok u => exact ⟨_, rfl⟩
  · intro base w h o s
    unfold picsumBuildUrlLogged
    cases PicsumUrlBuilder.buildUrl base w h o with
    | error e => exact ⟨[], by simp⟩
    | ok u => exact ⟨_, rfl⟩
  · intro base w h o s
    unfold placeholdBuildUrlLogged
    cases PlaceholdUrlBuilder.buildUrl base w h o <;> rfl

/-- C10: customText is never validated, an empty customText builds the same
URL as an absent one, and a text query parameter appears among the query
parameters exactly when customText is present and non-empty. -/
theorem C10_empty_customText :
    (∀ (o : PlaceholdOptions) (t : Option String),
      PlaceholdUrlBuilder.validateOptions (some { o with customText := t }) =
        PlaceholdUrlBuilder.validateOptions (some o)) ∧
    (∀ (w : Int) (h : Option Int) (o : PlaceholdOptions),
      PlaceholdUrlBuilder.buildUrl "https://placehold.co" w h
          (some { o with customText := some "" }) =
        PlaceholdUrlBuilder.buildUrl "https://placehold.co" w h
          (some { o with customText := none })) ∧
    (∀ o : PlaceholdOptions,
      (PlaceholdUrlBuilder.queryParams o).any
          (fun q => List.isPrefixOf "text=".data q.data) =
        truthyStr o.customText) ∧
    PlaceholdUrlBuilder.buildUrl "https://placehold.co" 100 none
        (some { customText := some "" }) =
      Except.ok "https://placehold.co/100" ∧
    PlaceholdUrlBuilder.buildUrl "https://placehold.co" 100 none
        (some { customText := some "Hi there" }) =
      Except.ok "https://placehold.co/100?text=Hi+there" := by
  refine ⟨fun o t => rfl, fun w h o => rfl, ?_, by decide, by decide⟩
  intro o
  rw [PlaceholdUrlBuilder.queryParams]
  cases hct : o.customText with
  | none =>
    simp [hct]
    intro x hf hl hx
    subst hx
    exact textPrefixFalseProp (jsReplaceFirstHyphen (o.font.getD ""))
  | some t =>
    by_cases ht : t = ""
    · subst ht
      simp [hct]
      intro x hf hl hx
      subst hx
      exact textPrefixFalseProp (jsReplaceFirstHyphen (o.font.getD ""))
    · have hneb : (t == "") = false := beq_eq_false_iff_ne.mpr ht
      have hpt : List.isPrefixOf "text=".data
          (("text=" ++ BaseUrlBuilder.encodeText t).data) = true := by
        rw [String.data_append]
        exact isPrefixOfAppendSelf _ _
      simp [hct, hneb, hpt]
